import Mathlib

/-!
Verification of the safe serialization subsystem of tfhe-rs
(`src/tfhe/src/safe_serialization.rs`).

The development shallowly embeds the wire format and the four public
operations (`SerializationConfig::serialize_into`,
`NonConformantDeserializationConfig::deserialize_from`,
`DeserializationConfig::deserialize_from`, and the builder transitions)
as executable Lean functions over byte lists (`List Nat`).

Modelling conventions:
- Byte streams are `List Nat`. Strings are encoded as in bincode fixint
  mode: an 8-byte little-endian length prefix followed by the character
  payload, one list entry per unicode scalar value (this coincides with
  the real UTF-8 encoding on the ASCII strings the library uses).
- The external collaborator bincode is modelled at the interface the
  repository documents and the specification describes: each record is
  encoded or decoded under a byte budget, where a budget of `0` means
  the budget is disabled (unbounded) and a nonzero budget rejects any
  record whose encoding consumes more bytes than the budget.
- The external collaborator traits `Named`, `Versionize`/`Unversionize`,
  serde, and `ParameterSetConformant` are bundled into a single
  `TypeInterface` record; their contracts (encode/decode inversion,
  versionize/unversionize inversion) appear as explicit hypotheses.
- `CRATE_VERSION` is fixed at build time from environment variables that
  are not part of the shown source, so it is passed as an explicit
  `crate_version : String` argument wherever the source reads the
  constant.
- Rust `u64` size limits are modelled as `Nat`; the only subtraction the
  source performs is guarded so that it never wraps, which is itself one
  of the verified claims.
-/

/-- Global version of the serialization scheme (`SERIALIZATION_VERSION`). -/
def SERIALIZATION_VERSION : String := "0.5"

/-- Version of the versioning scheme (`VERSIONING_VERSION`). -/
def VERSIONING_VERSION : String := "0.1"

/-- Maximum serialized header size tried by deserialization (`HEADER_LENGTH_LIMIT`). -/
def HEADER_LENGTH_LIMIT : Nat := 1000

/-- Mirrors `enum SerializationVersioningMode`. -/
inductive SerializationVersioningMode where
  | Versioned (versioning_version : String)
  | Unversioned (crate_version : String)
deriving DecidableEq

/-- Mirrors `SerializationVersioningMode::versioned()`. -/
def SerializationVersioningMode.versioned : SerializationVersioningMode :=
  SerializationVersioningMode.Versioned VERSIONING_VERSION

/-- Mirrors `SerializationVersioningMode::unversioned()`; `CRATE_VERSION` is an
explicit argument because it comes from build-time environment variables. -/
def SerializationVersioningMode.unversioned (crate_version : String) :
    SerializationVersioningMode :=
  SerializationVersioningMode.Unversioned crate_version

/-- The string carried by either variant, used to state size side conditions. -/
def SerializationVersioningMode.modeString : SerializationVersioningMode → String
  | SerializationVersioningMode.Versioned vv => vv
  | SerializationVersioningMode.Unversioned cvs => cvs

/-- Mirrors `struct SerializationHeader`. -/
structure SerializationHeader where
  header_version : String
  versioning_mode : SerializationVersioningMode
  name : String
deriving DecidableEq

/-- Mirrors `SerializationHeader::new_versioned::<T>()`; the type name of `T`
is passed explicitly. -/
def SerializationHeader.new_versioned (name : String) : SerializationHeader :=
  { header_version := SERIALIZATION_VERSION
    versioning_mode := SerializationVersioningMode.versioned
    name := name }

/-- Mirrors `SerializationHeader::new_unversioned::<T>()`. -/
def SerializationHeader.new_unversioned (crate_version : String) (name : String) :
    SerializationHeader :=
  { header_version := SERIALIZATION_VERSION
    versioning_mode := SerializationVersioningMode.unversioned crate_version
    name := name }

/-- The error text formatted on a versioning scheme version mismatch. -/
def versioningMismatchMsg (got : String) : String :=
  "On deserialization, expected versioning scheme version " ++ VERSIONING_VERSION ++
    ", got version " ++ got

/-- The error text formatted on an unversioned crate version mismatch; it
recommends the versioned serialization mode. -/
def unversionedMismatchMsg (name : String) (crate_version : String) : String :=
  "This " ++ name ++ " has been saved from TFHE-rs v" ++ crate_version ++
    ", without versioning informations. Please use the versioned serialization mode for backward compatibility."

/-- The error text formatted on a type name mismatch; it names the expected
and the found type. -/
def nameMismatchMsg (expected : String) (got : String) : String :=
  "On deserialization, expected type " ++ expected ++ ", got type " ++ got

/-- The error text returned when the read size limit does not even admit the
header budget. -/
def sizeLimitTooSmallMsg : String :=
  "The provided size limit is too small, provide a limit of at least 1000 bytes"

/-- The error text formatted when a decoded object fails its conformance
predicate. -/
def conformanceErrMsg (name : String) : String :=
  "Deserialized object of type " ++ name ++ " not conformant with given parameter set"

/-- Display text of the bincode size limit error. -/
def bincodeSizeErrMsg : String := "the size limit has been reached"

/-- Representative display text of a bincode decode failure. -/
def bincodeDecodeErrMsg : String := "bincode deserialize error"

/-- Little-endian fixed 8-byte encoding of a `u64` value, as bincode fixint
mode writes length prefixes. -/
def encodeU64 (n : Nat) : List Nat :=
  [n % 256, n / 256 % 256, n / 256 ^ 2 % 256, n / 256 ^ 3 % 256,
   n / 256 ^ 4 % 256, n / 256 ^ 5 % 256, n / 256 ^ 6 % 256, n / 256 ^ 7 % 256]

/-- Little-endian fixed 4-byte encoding of a `u32` value, as bincode fixint
mode writes enum variant tags. -/
def encodeU32 (n : Nat) : List Nat :=
  [n % 256, n / 256 % 256, n / 256 ^ 2 % 256, n / 256 ^ 3 % 256]

/-- Reads back a fixed 8-byte little-endian `u64`. -/
def decodeU64 : List Nat → Option (Nat × List Nat)
  | b0 :: b1 :: b2 :: b3 :: b4 :: b5 :: b6 :: b7 :: rest =>
      some (b0 + 256 * b1 + 256 ^ 2 * b2 + 256 ^ 3 * b3 + 256 ^ 4 * b4 +
        256 ^ 5 * b5 + 256 ^ 6 * b6 + 256 ^ 7 * b7, rest)
  | _ => none

/-- Reads back a fixed 4-byte little-endian `u32`. -/
def decodeU32 : List Nat → Option (Nat × List Nat)
  | b0 :: b1 :: b2 :: b3 :: rest =>
      some (b0 + 256 * b1 + 256 ^ 2 * b2 + 256 ^ 3 * b3, rest)
  | _ => none

/-- Length-prefixed string encoding, as bincode fixint mode serializes the
`Cow` string fields of the header. -/
def encodeStr (s : String) : List Nat :=
  encodeU64 s.length ++ s.data.map Char.toNat

/-- Reads back a length-prefixed string. -/
def decodeStr (l : List Nat) : Option (String × List Nat) :=
  (decodeU64 l).bind (fun p =>
    if p.1 ≤ p.2.length then
      some (String.mk ((p.2.take p.1).map Char.ofNat), p.2.drop p.1)
    else none)

/-- Bincode encoding of `SerializationVersioningMode`: a 4-byte variant tag
followed by the variant field. -/
def encodeVersioningMode : SerializationVersioningMode → List Nat
  | SerializationVersioningMode.Versioned vv => encodeU32 0 ++ encodeStr vv
  | SerializationVersioningMode.Unversioned cvs => encodeU32 1 ++ encodeStr cvs

/-- Reads back a `SerializationVersioningMode`. -/
def decodeVersioningMode (l : List Nat) :
    Option (SerializationVersioningMode × List Nat) :=
  (decodeU32 l).bind (fun p =>
    if p.1 = 0 then
      (decodeStr p.2).map (fun q => (SerializationVersioningMode.Versioned q.1, q.2))
    else if p.1 = 1 then
      (decodeStr p.2).map (fun q => (SerializationVersioningMode.Unversioned q.1, q.2))
    else none)

/-- Bincode fixint encoding of the header record: the three fields in
declaration order. -/
def encodeHeader (h : SerializationHeader) : List Nat :=
  encodeStr h.header_version ++ encodeVersioningMode h.versioning_mode ++
    encodeStr h.name

/-- Reads back a header record, returning the unread remainder. -/
def decodeHeader (l : List Nat) : Option (SerializationHeader × List Nat) :=
  (decodeStr l).bind (fun p =>
    (decodeVersioningMode p.2).bind (fun q =>
      (decodeStr q.2).map (fun w =>
        ({ header_version := p.1, versioning_mode := q.1, name := w.1 }, w.2))))

/-- Side condition for the 8-byte length prefixes: all strings of a header
fit in a `u64` length, which always holds for real Rust strings. -/
def headerSmall (h : SerializationHeader) : Prop :=
  h.header_version.length < 2 ^ 64 ∧ h.versioning_mode.modeString.length < 2 ^ 64 ∧
    h.name.length < 2 ^ 64

/-- Model of `bincode::Options::with_limit(limit).serialize_into`: the record
is written whole, and a nonzero budget rejects an encoding longer than the
budget. A budget of 0 disables the check, per the interface documented by the
repository (`disable_size_limit`, `new_with_unlimited_size`). -/
def bincodeSerialize {α : Type} (enc : α → List Nat) (limit : Nat) (a : α) :
    Except String (List Nat) :=
  if limit ≠ 0 ∧ limit < (enc a).length then Except.error bincodeSizeErrMsg
  else Except.ok (enc a)

/-- Model of `bincode::Options::with_limit(limit).deserialize_from`: a record
is decoded from the front of the stream, and a nonzero budget rejects a
record that consumed more bytes than the budget. A budget of 0 disables the
check, per the interface documented by the repository. -/
def bincodeDeserialize {α : Type} (dec : List Nat → Option (α × List Nat))
    (limit : Nat) (input : List Nat) : Except String (α × List Nat) :=
  match dec input with
  | none => Except.error bincodeDecodeErrMsg
  | some (a, rest) =>
      if limit ≠ 0 ∧ limit < input.length - rest.length then
        Except.error bincodeSizeErrMsg
      else Except.ok (a, rest)

/-- Bundles the collaborator capability set a serializable type `T` supplies:
its stable `Named::NAME`, its serde encoding, its versioned envelope type `V`
with `Versionize`/`Unversionize` and the envelope serde encoding, and its
`ParameterSetConformant` predicate over parameter sets `P`. -/
structure TypeInterface (T : Type) (V : Type) (P : Type) where
  name : String
  encode : T → List Nat
  decode : List Nat → Option (T × List Nat)
  versionize : T → V
  unversionize : V → Except String T
  vencode : V → List Nat
  vdecode : List Nat → Option (V × List Nat)
  is_conformant : T → P → Bool

/-- Mirrors `SerializationHeader::validate::<T>`: the versioning mode checks
run first, then the type name check. `crate_version` is the build-time
`CRATE_VERSION` of the reading crate, `expectedName` is `T::NAME`. -/
def SerializationHeader.validate (h : SerializationHeader)
    (crate_version : String) (expectedName : String) : Except String Unit :=
  match
    (match h.versioning_mode with
     | SerializationVersioningMode.Versioned versioning_version =>
         if versioning_version ≠ VERSIONING_VERSION then
           Except.error (versioningMismatchMsg versioning_version)
         else Except.ok ()
     | SerializationVersioningMode.Unversioned crate_version_got =>
         if crate_version_got ≠ crate_version then
           Except.error (unversionedMismatchMsg h.name crate_version_got)
         else Except.ok ())
  with
  | Except.error e => Except.error e
  | Except.ok _ =>
      if h.name ≠ expectedName then
        Except.error (nameMismatchMsg expectedName h.name)
      else Except.ok ()

/-- Mirrors `struct SerializationConfig`. -/
structure SerializationConfig where
  versioned : SerializationVersioningMode
  serialized_size_limit : Nat

/-- Mirrors `SerializationConfig::new`. -/
def SerializationConfig.new (serialized_size_limit : Nat) : SerializationConfig :=
  { versioned := SerializationVersioningMode.versioned
    serialized_size_limit := serialized_size_limit }

/-- Mirrors `SerializationConfig::new_with_unlimited_size`. -/
def SerializationConfig.new_with_unlimited_size : SerializationConfig :=
  { versioned := SerializationVersioningMode.versioned
    serialized_size_limit := 0 }

/-- Mirrors `SerializationConfig::disable_size_limit`. -/
def SerializationConfig.disable_size_limit (c : SerializationConfig) :
    SerializationConfig :=
  { c with serialized_size_limit := 0 }

/-- Mirrors `SerializationConfig::disable_versioning`; the build-time
`CRATE_VERSION` is an explicit argument. -/
def SerializationConfig.disable_versioning (c : SerializationConfig)
    (crate_version : String) : SerializationConfig :=
  { c with versioned := SerializationVersioningMode.unversioned crate_version }

/-- Mirrors `SerializationConfig::create_header::<T>`. -/
def SerializationConfig.create_header (c : SerializationConfig)
    (crate_version : String) (name : String) : SerializationHeader :=
  match c.versioned with
  | SerializationVersioningMode.Versioned _ => SerializationHeader.new_versioned name
  | SerializationVersioningMode.Unversioned _ =>
      SerializationHeader.new_unversioned crate_version name

/-- Mirrors `SerializationConfig::header_length_limit`. -/
def SerializationConfig.header_length_limit (c : SerializationConfig) : Nat :=
  if c.serialized_size_limit = 0 then 0 else HEADER_LENGTH_LIMIT

/-- Mirrors `SerializationConfig::serialize_into::<T>`: writes the header
record under the header budget, then the payload record (versioned envelope
or raw encoding) under the configured size limit. The writer is modelled by
returning the produced byte stream. -/
def SerializationConfig.serialize_into {T V P : Type} (c : SerializationConfig)
    (I : TypeInterface T V P) (crate_version : String) (object : T) :
    Except String (List Nat) :=
  match bincodeSerialize encodeHeader c.header_length_limit
      (c.create_header crate_version I.name) with
  | Except.error e => Except.error e
  | Except.ok headerBytes =>
      match c.versioned with
      | SerializationVersioningMode.Versioned _ =>
          match bincodeSerialize I.vencode c.serialized_size_limit
              (I.versionize object) with
          | Except.error e => Except.error e
          | Except.ok payloadBytes => Except.ok (headerBytes ++ payloadBytes)
      | SerializationVersioningMode.Unversioned _ =>
          match bincodeSerialize I.encode c.serialized_size_limit object with
          | Except.error e => Except.error e
          | Except.ok payloadBytes => Except.ok (headerBytes ++ payloadBytes)

/-- Mirrors `struct DeserializationConfig`. -/
structure DeserializationConfig where
  serialized_size_limit : Nat
  validate_header : Bool
deriving DecidableEq

/-- Mirrors `struct NonConformantDeserializationConfig`. -/
structure NonConformantDeserializationConfig where
  serialized_size_limit : Nat
  validate_header : Bool
deriving DecidableEq

/-- Mirrors `NonConformantDeserializationConfig::header_length_limit`. -/
def NonConformantDeserializationConfig.header_length_limit
    (c : NonConformantDeserializationConfig) : Nat :=
  if c.serialized_size_limit = 0 then 0 else HEADER_LENGTH_LIMIT

/-- Mirrors `NonConformantDeserializationConfig::deserialize_from::<T>`:
rejects a size limit in `(0, HEADER_LENGTH_LIMIT]`, reads the header record
under the header budget, optionally validates it, then reads the payload
record under the remaining budget and reconstructs the object according to
the versioning mode found in the header. -/
def NonConformantDeserializationConfig.deserialize_from {T V P : Type}
    (c : NonConformantDeserializationConfig) (I : TypeInterface T V P)
    (crate_version : String) (input : List Nat) : Except String T :=
  if c.serialized_size_limit ≠ 0 ∧ c.serialized_size_limit ≤ HEADER_LENGTH_LIMIT then
    Except.error sizeLimitTooSmallMsg
  else
    match bincodeDeserialize decodeHeader c.header_length_limit input with
    | Except.error e => Except.error e
    | Except.ok (deserialized_header, rest) =>
        match
          (if c.validate_header then
            deserialized_header.validate crate_version I.name
          else Except.ok ())
        with
        | Except.error e => Except.error e
        | Except.ok _ =>
            match deserialized_header.versioning_mode with
            | SerializationVersioningMode.Versioned _ =>
                match bincodeDeserialize I.vdecode
                    (c.serialized_size_limit - c.header_length_limit) rest with
                | Except.error e => Except.error e
                | Except.ok (deser_versioned, _) => I.unversionize deser_versioned
            | SerializationVersioningMode.Unversioned _ =>
                match bincodeDeserialize I.decode
                    (c.serialized_size_limit - c.header_length_limit) rest with
                | Except.error e => Except.error e
                | Except.ok (deser, _) => Except.ok deser

/-- Mirrors `NonConformantDeserializationConfig::enable_conformance`. -/
def NonConformantDeserializationConfig.enable_conformance
    (c : NonConformantDeserializationConfig) : DeserializationConfig :=
  { serialized_size_limit := c.serialized_size_limit
    validate_header := c.validate_header }

/-- Mirrors `DeserializationConfig::new`; construction is total and records
the requested limit verbatim. -/
def DeserializationConfig.new (serialized_size_limit : Nat) :
    DeserializationConfig :=
  { serialized_size_limit := serialized_size_limit
    validate_header := true }

/-- Mirrors `DeserializationConfig::new_with_unlimited_size`. -/
def DeserializationConfig.new_with_unlimited_size : DeserializationConfig :=
  { serialized_size_limit := 0
    validate_header := true }

/-- Mirrors `DeserializationConfig::disable_size_limit`. -/
def DeserializationConfig.disable_size_limit (c : DeserializationConfig) :
    DeserializationConfig :=
  { c with serialized_size_limit := 0 }

/-- Mirrors `DeserializationConfig::disable_header_validation`. -/
def DeserializationConfig.disable_header_validation (c : DeserializationConfig) :
    DeserializationConfig :=
  { c with validate_header := false }

/-- Mirrors `DeserializationConfig::disable_conformance`. -/
def DeserializationConfig.disable_conformance (c : DeserializationConfig) :
    NonConformantDeserializationConfig :=
  { serialized_size_limit := c.serialized_size_limit
    validate_header := c.validate_header }

/-- Mirrors `DeserializationConfig::deserialize_from::<T>`: runs the
non-conformant decode path, then rejects the decoded object when its
conformance predicate fails on the supplied parameter set. -/
def DeserializationConfig.deserialize_from {T V P : Type}
    (c : DeserializationConfig) (I : TypeInterface T V P)
    (crate_version : String) (input : List Nat) (parameter_set : P) :
    Except String T :=
  match c.disable_conformance.deserialize_from I crate_version input with
  | Except.error e => Except.error e
  | Except.ok deser =>
      if ¬ I.is_conformant deser parameter_set then
        Except.error (conformanceErrMsg I.name)
      else Except.ok deser

/-- Mirrors the free function `safe_serialize`. -/
def safe_serialize {T V P : Type} (I : TypeInterface T V P)
    (crate_version : String) (object : T) (serialized_size_limit : Nat) :
    Except String (List Nat) :=
  (SerializationConfig.new serialized_size_limit).serialize_into I crate_version object

/-- Mirrors the free function `safe_deserialize`. -/
def safe_deserialize {T V P : Type} (I : TypeInterface T V P)
    (crate_version : String) (input : List Nat) (serialized_size_limit : Nat) :
    Except String T :=
  ((DeserializationConfig.new serialized_size_limit).disable_conformance).deserialize_from
    I crate_version input

/-- Mirrors the free function `safe_deserialize_conformant`. -/
def safe_deserialize_conformant {T V P : Type} (I : TypeInterface T V P)
    (crate_version : String) (input : List Nat) (serialized_size_limit : Nat)
    (parameter_set : P) : Except String T :=
  (DeserializationConfig.new serialized_size_limit).deserialize_from
    I crate_version input parameter_set

/-- Comparison definition following the words of the specification, for the
claim that construction of a `DeserializationConfig` rejects a size limit in
`(0, HEADER_LENGTH_LIMIT]` as a configuration error. The source constructor
`DeserializationConfig::new` is total; this definition exists only to be
compared against it. -/
def DeserializationConfig.new_spec (serialized_size_limit : Nat) :
    Except String DeserializationConfig :=
  if 0 < serialized_size_limit ∧ serialized_size_limit ≤ HEADER_LENGTH_LIMIT then
    Except.error sizeLimitTooSmallMsg
  else
    Except.ok { serialized_size_limit := serialized_size_limit, validate_header := true }

/-- A small concrete collaborator instance used for concrete evaluations: a
`Nat` payload encoded as a single stream entry, identity versioning, and a
boolean parameter set acting as the conformance verdict. -/
def natInterface : TypeInterface Nat Nat Bool :=
  { name := "TestType"
    encode := fun t => [t]
    decode := fun l =>
      match l with
      | [] => none
      | b :: r => some (b, r)
    versionize := fun t => t
    unversionize := fun v => Except.ok v
    vencode := fun v => [v]
    vdecode := fun l =>
      match l with
      | [] => none
      | b :: r => some (b, r)
    is_conformant := fun _ p => p }

/-- A second concrete collaborator instance whose payload records are 8
bytes long (a fixed-width integer), used to exercise nonzero but very small
payload budgets. -/
def u64Interface : TypeInterface Nat Nat Bool :=
  { name := "TestU64"
    encode := encodeU64
    decode := decodeU64
    versionize := fun t => t
    unversionize := fun v => Except.ok v
    vencode := encodeU64
    vdecode := decodeU64
    is_conformant := fun _ _ => true }

/-- A 1000-character type name, long enough that a header embedding it
exceeds `HEADER_LENGTH_LIMIT`. -/
def longTestName : String := String.mk (List.replicate 1000 'a')

/-- Reading back an 8-byte length prefix recovers the value modulo `2 ^ 64`. -/
theorem decodeU64_encodeU64 (n : Nat) (r : List Nat) :
    decodeU64 (encodeU64 n ++ r) = some (n % 2 ^ 64, r) := by
  simp only [encodeU64, List.cons_append, List.nil_append, decodeU64,
    Option.some.injEq, Prod.mk.injEq]
  exact ⟨by omega, trivial⟩

/-- Reading back a 4-byte variant tag recovers the value modulo `2 ^ 32`. -/
theorem decodeU32_encodeU32 (n : Nat) (r : List Nat) :
    decodeU32 (encodeU32 n ++ r) = some (n % 2 ^ 32, r) := by
  simp only [encodeU32, List.cons_append, List.nil_append, decodeU32,
    Option.some.injEq, Prod.mk.injEq]
  exact ⟨by omega, trivial⟩

/-- String decoding inverts string encoding and leaves the remainder. -/
theorem decodeStr_encodeStr (s : String) (h : s.length < 2 ^ 64) (r : List Nat) :
    decodeStr (encodeStr s ++ r) = some (s, r) := by
  unfold encodeStr decodeStr
  rw [List.append_assoc, decodeU64_encodeU64, Nat.mod_eq_of_lt h]
  have hsd : s.length = (s.data.map Char.toNat).length := by
    rw [List.length_map]
    cases s
    rfl
  simp only [Option.some_bind]
  have hlen : s.length ≤ (s.data.map Char.toNat ++ r).length := by
    rw [List.length_append, ← hsd]
    omega
  rw [if_pos hlen, hsd, List.take_left, List.drop_left]
  have hchars : (s.data.map Char.toNat).map Char.ofNat = s.data := by
    rw [List.map_map]
    have hid : (Char.ofNat ∘ Char.toNat) = id := by
      funext c
      exact Char.ofNat_toNat c
    rw [hid, List.map_id]
  rw [hchars]

/-- Versioning mode decoding inverts its encoding and leaves the remainder. -/
theorem decodeVersioningMode_encodeVersioningMode (m : SerializationVersioningMode)
    (h : m.modeString.length < 2 ^ 64) (r : List Nat) :
    decodeVersioningMode (encodeVersioningMode m ++ r) = some (m, r) := by
  cases m with
  | Versioned vv =>
      have h32 := decodeU32_encodeU32 0 (encodeStr vv ++ r)
      rw [Nat.zero_mod] at h32
      unfold encodeVersioningMode decodeVersioningMode
      rw [List.append_assoc, h32]
      simp only [Option.some_bind, if_true]
      rw [decodeStr_encodeStr vv h r]
      rfl
  | Unversioned cvs =>
      have h32 := decodeU32_encodeU32 1 (encodeStr cvs ++ r)
      have h1 : (1 : Nat) % 2 ^ 32 = 1 := by norm_num
      rw [h1] at h32
      unfold encodeVersioningMode decodeVersioningMode
      rw [List.append_assoc, h32]
      simp only [Option.some_bind, if_true]
      rw [decodeStr_encodeStr cvs h r]
      rfl

/-- Header decoding inverts header encoding and leaves the remainder. -/
theorem decodeHeader_encodeHeader (hd : SerializationHeader) (h : headerSmall hd)
    (r : List Nat) :
    decodeHeader (encodeHeader hd ++ r) = some (hd, r) := by
  obtain ⟨h1, h2, h3⟩ := h
  unfold encodeHeader decodeHeader
  rw [List.append_assoc, List.append_assoc, decodeStr_encodeStr _ h1]
  simp only [Option.some_bind]
  rw [decodeVersioningMode_encodeVersioningMode _ h2]
  simp only [Option.some_bind]
  rw [decodeStr_encodeStr _ h3]
  rfl

/-- Bincode record reads on a stream whose front is one whole encoded record:
the record is returned and the size check sees exactly the record length. -/
theorem bincodeDeserialize_encoded {α : Type}
    (dec : List Nat → Option (α × List Nat)) (limit : Nat) (pre r : List Nat)
    (a : α) (hdec : dec (pre ++ r) = some (a, r)) :
    bincodeDeserialize dec limit (pre ++ r) =
      if limit ≠ 0 ∧ limit < pre.length then Except.error bincodeSizeErrMsg
      else Except.ok (a, r) := by
  unfold bincodeDeserialize
  rw [hdec]
  have hl : (pre ++ r).length - r.length = pre.length := by
    rw [List.length_append]
    omega
  show (if limit ≠ 0 ∧ limit < (pre ++ r).length - r.length then
      (Except.error bincodeSizeErrMsg : Except String (α × List Nat))
    else Except.ok (a, r)) = _
  rw [hl]

/-- Splits a run of the non-conformant read path on a stream made of one
well-formed header record followed by payload bytes: once the guard passes
and the header fits its budget, the run reduces to header validation followed
by the payload stage. -/
theorem deserialize_from_encodedHeader {T V P : Type} (I : TypeInterface T V P)
    (crate_version : String) (c : NonConformantDeserializationConfig)
    (hd : SerializationHeader) (hsmall : headerSmall hd) (pb : List Nat)
    (hguard : ¬ (c.serialized_size_limit ≠ 0 ∧
      c.serialized_size_limit ≤ HEADER_LENGTH_LIMIT))
    (hfit : ¬ (c.header_length_limit ≠ 0 ∧
      c.header_length_limit < (encodeHeader hd).length)) :
    c.deserialize_from I crate_version (encodeHeader hd ++ pb) =
      match (if c.validate_header then hd.validate crate_version I.name
             else Except.ok ()) with
      | Except.error e => Except.error e
      | Except.ok _ =>
          match hd.versioning_mode with
          | SerializationVersioningMode.Versioned _ =>
              match bincodeDeserialize I.vdecode
                  (c.serialized_size_limit - c.header_length_limit) pb with
              | Except.error e => Except.error e
              | Except.ok (v, _) => I.unversionize v
          | SerializationVersioningMode.Unversioned _ =>
              match bincodeDeserialize I.decode
                  (c.serialized_size_limit - c.header_length_limit) pb with
              | Except.error e => Except.error e
              | Except.ok (t, _) => Except.ok t := by
  unfold NonConformantDeserializationConfig.deserialize_from
  rw [if_neg hguard,
    bincodeDeserialize_encoded decodeHeader c.header_length_limit
      (encodeHeader hd) pb hd (decodeHeader_encodeHeader hd hsmall pb),
    if_neg hfit]

/-- Header validation accepts the header written for a versioned message of
the expected type, whatever the reader crate version is. -/
theorem validate_new_versioned (nm : String) (crate_version : String) :
    (SerializationHeader.new_versioned nm).validate crate_version nm =
      Except.ok () := by
  show (match (if VERSIONING_VERSION ≠ VERSIONING_VERSION then
        Except.error (versioningMismatchMsg VERSIONING_VERSION)
      else Except.ok ()) with
    | Except.error e => Except.error e
    | Except.ok _ =>
        if nm ≠ nm then Except.error (nameMismatchMsg nm nm) else Except.ok ()) =
    Except.ok ()
  rw [if_neg (fun hc => hc rfl)]
  show (if nm ≠ nm then Except.error (nameMismatchMsg nm nm) else Except.ok ()) =
    Except.ok ()
  rw [if_neg (fun hc => hc rfl)]

/-- Header validation accepts the header written for an unversioned message
of the expected type when the reader crate version equals the embedded one. -/
theorem validate_new_unversioned (nm : String) (crate_version : String) :
    (SerializationHeader.new_unversioned crate_version nm).validate
        crate_version nm = Except.ok () := by
  show (match (if crate_version ≠ crate_version then
        Except.error (unversionedMismatchMsg nm crate_version)
      else Except.ok ()) with
    | Except.error e => Except.error e
    | Except.ok _ =>
        if nm ≠ nm then Except.error (nameMismatchMsg nm nm) else Except.ok ()) =
    Except.ok ()
  rw [if_neg (fun hc => hc rfl)]
  show (if nm ≠ nm then Except.error (nameMismatchMsg nm nm) else Except.ok ()) =
    Except.ok ()
  rw [if_neg (fun hc => hc rfl)]

/-- The write path succeeds in versioned mode whenever the header and the
versioned payload fit their budgets, producing the header record followed by
the envelope record. -/
theorem serialize_into_versioned {T V P : Type} (I : TypeInterface T V P)
    (crate_version : String) (c : SerializationConfig) (O : T) (vv : String)
    (hmode : c.versioned = SerializationVersioningMode.Versioned vv)
    (hhead : c.serialized_size_limit ≠ 0 →
      (encodeHeader (SerializationHeader.new_versioned I.name)).length ≤
        HEADER_LENGTH_LIMIT)
    (hpay : c.serialized_size_limit ≠ 0 →
      (I.vencode (I.versionize O)).length ≤ c.serialized_size_limit) :
    c.serialize_into I crate_version O =
      Except.ok (encodeHeader (SerializationHeader.new_versioned I.name) ++
        I.vencode (I.versionize O)) := by
  have hch : c.create_header crate_version I.name =
      SerializationHeader.new_versioned I.name := by
    unfold SerializationConfig.create_header
    rw [hmode]
  have hhl : ¬ (c.header_length_limit ≠ 0 ∧ c.header_length_limit <
      (encodeHeader (c.create_header crate_version I.name)).length) := by
    rw [hch]
    unfold SerializationConfig.header_length_limit
    by_cases hs : c.serialized_size_limit = 0
    · rw [if_pos hs]
      simp
    · rw [if_neg hs]
      have hle := hhead hs
      intro hc
      omega
  have hc1 : bincodeSerialize encodeHeader c.header_length_limit
      (c.create_header crate_version I.name) =
      Except.ok (encodeHeader (SerializationHeader.new_versioned I.name)) := by
    unfold bincodeSerialize
    rw [if_neg hhl, hch]
  have hc2 : bincodeSerialize I.vencode c.serialized_size_limit
      (I.versionize O) = Except.ok (I.vencode (I.versionize O)) := by
    unfold bincodeSerialize
    rw [if_neg (fun hc => absurd hc.2 (not_lt.mpr (hpay hc.1)))]
  unfold SerializationConfig.serialize_into
  rw [hc1, hmode, hc2]

/-- The write path succeeds in unversioned mode whenever the header and the
raw payload fit their budgets, producing the header record followed by the
raw record. -/
theorem serialize_into_unversioned {T V P : Type} (I : TypeInterface T V P)
    (crate_version : String) (c : SerializationConfig) (O : T) (cvs : String)
    (hmode : c.versioned = SerializationVersioningMode.Unversioned cvs)
    (hhead : c.serialized_size_limit ≠ 0 →
      (encodeHeader (SerializationHeader.new_unversioned crate_version I.name)).length ≤
        HEADER_LENGTH_LIMIT)
    (hpay : c.serialized_size_limit ≠ 0 →
      (I.encode O).length ≤ c.serialized_size_limit) :
    c.serialize_into I crate_version O =
      Except.ok (encodeHeader (SerializationHeader.new_unversioned crate_version I.name) ++
        I.encode O) := by
  have hch : c.create_header crate_version I.name =
      SerializationHeader.new_unversioned crate_version I.name := by
    unfold SerializationConfig.create_header
    rw [hmode]
  have hhl : ¬ (c.header_length_limit ≠ 0 ∧ c.header_length_limit <
      (encodeHeader (c.create_header crate_version I.name)).length) := by
    rw [hch]
    unfold SerializationConfig.header_length_limit
    by_cases hs : c.serialized_size_limit = 0
    · rw [if_pos hs]
      simp
    · rw [if_neg hs]
      have hle := hhead hs
      intro hc
      omega
  have hc1 : bincodeSerialize encodeHeader c.header_length_limit
      (c.create_header crate_version I.name) =
      Except.ok (encodeHeader (SerializationHeader.new_unversioned crate_version I.name)) := by
    unfold bincodeSerialize
    rw [if_neg hhl, hch]
  have hc2 : bincodeSerialize I.encode c.serialized_size_limit O =
      Except.ok (I.encode O) := by
    unfold bincodeSerialize
    rw [if_neg (fun hc => absurd hc.2 (not_lt.mpr (hpay hc.1)))]
  unfold SerializationConfig.serialize_into
  rw [hc1, hmode, hc2]

/-- Bincode record reads succeed when the stream is exactly one record that
fits the budget. -/
theorem bincodeDeserialize_whole {α : Type}
    (dec : List Nat → Option (α × List Nat)) (limit : Nat) (pre : List Nat)
    (a : α) (hdec : dec pre = some (a, ([] : List Nat)))
    (hfit : limit ≠ 0 → pre.length ≤ limit) :
    bincodeDeserialize dec limit pre = Except.ok (a, []) := by
  unfold bincodeDeserialize
  rw [hdec]
  show (if limit ≠ 0 ∧ limit < pre.length - ([] : List Nat).length then
      (Except.error bincodeSizeErrMsg : Except String (α × List Nat))
    else Except.ok (a, [])) = Except.ok (a, [])
  rw [if_neg ?hc]
  case hc =>
    rintro ⟨h1, h2⟩
    have := hfit h1
    simp only [List.length_nil, Nat.sub_zero] at h2
    omega

/-- The non-conformant read path recovers the object from the byte stream
produced by a versioned write, under faithful collaborator protocols and
sufficient budgets. -/
theorem ncdc_deserialize_versioned_ok {T V P : Type} (I : TypeInterface T V P)
    (crate_version : String) (c : NonConformantDeserializationConfig) (O : T)
    (hvdec : ∀ v r, I.vdecode (I.vencode v ++ r) = some (v, r))
    (hunv : ∀ t, I.unversionize (I.versionize t) = Except.ok t)
    (hname : I.name.length < 2 ^ 64)
    (hguard : c.serialized_size_limit = 0 ∨
      HEADER_LENGTH_LIMIT < c.serialized_size_limit)
    (hhead : c.serialized_size_limit ≠ 0 →
      (encodeHeader (SerializationHeader.new_versioned I.name)).length ≤
        HEADER_LENGTH_LIMIT)
    (hbud : c.serialized_size_limit ≠ 0 →
      (I.vencode (I.versionize O)).length ≤
        c.serialized_size_limit - HEADER_LENGTH_LIMIT) :
    c.deserialize_from I crate_version
        (encodeHeader (SerializationHeader.new_versioned I.name) ++
          I.vencode (I.versionize O)) =
      Except.ok O := by
  have hsmall : headerSmall (SerializationHeader.new_versioned I.name) :=
    ⟨(by decide : SERIALIZATION_VERSION.length < 2 ^ 64),
     (by decide : VERSIONING_VERSION.length < 2 ^ 64), hname⟩
  have hhl0 : c.serialized_size_limit = 0 → c.header_length_limit = 0 := by
    intro hz
    unfold NonConformantDeserializationConfig.header_length_limit
    rw [if_pos hz]
  have hhl1 : c.serialized_size_limit ≠ 0 →
      c.header_length_limit = HEADER_LENGTH_LIMIT := by
    intro hz
    unfold NonConformantDeserializationConfig.header_length_limit
    rw [if_neg hz]
  have hguard2 : ¬ (c.serialized_size_limit ≠ 0 ∧
      c.serialized_size_limit ≤ HEADER_LENGTH_LIMIT) := by
    rcases hguard with h | h
    · exact fun hc => hc.1 h
    · exact fun hc => by omega
  have hfit : ¬ (c.header_length_limit ≠ 0 ∧ c.header_length_limit <
      (encodeHeader (SerializationHeader.new_versioned I.name)).length) := by
    by_cases hz : c.serialized_size_limit = 0
    · rw [hhl0 hz]
      simp
    · rw [hhl1 hz]
      have := hhead hz
      intro hc
      omega
  have hd1 : I.vdecode (I.vencode (I.versionize O)) = some (I.versionize O, []) := by
    have h := hvdec (I.versionize O) []
    rwa [List.append_nil] at h
  have hfitbud : (c.serialized_size_limit - c.header_length_limit) ≠ 0 →
      (I.vencode (I.versionize O)).length ≤
        c.serialized_size_limit - c.header_length_limit := by
    intro hb
    by_cases hz : c.serialized_size_limit = 0
    · exact absurd (by rw [hz, hhl0 hz]) hb
    · rw [hhl1 hz]
      exact hbud hz
  have hpv := bincodeDeserialize_whole I.vdecode
    (c.serialized_size_limit - c.header_length_limit)
    (I.vencode (I.versionize O)) (I.versionize O) hd1 hfitbud
  rw [deserialize_from_encodedHeader I crate_version c _ hsmall _ hguard2 hfit]
  have hval2 : (if c.validate_header then
      (SerializationHeader.new_versioned I.name).validate crate_version I.name
    else Except.ok ()) = Except.ok () := by
    cases hvh : c.validate_header <;> simp [validate_new_versioned]
  rw [hval2, hpv]
  show I.unversionize (I.versionize O) = Except.ok O
  exact hunv O

/-- The non-conformant read path recovers the object from the byte stream
produced by an unversioned write, under a faithful serde protocol, matching
crate versions, and sufficient budgets. -/
theorem ncdc_deserialize_unversioned_ok {T V P : Type} (I : TypeInterface T V P)
    (crate_version : String) (c : NonConformantDeserializationConfig) (O : T)
    (hdec : ∀ t r, I.decode (I.encode t ++ r) = some (t, r))
    (hname : I.name.length < 2 ^ 64) (hcv : crate_version.length < 2 ^ 64)
    (hguard : c.serialized_size_limit = 0 ∨
      HEADER_LENGTH_LIMIT < c.serialized_size_limit)
    (hhead : c.serialized_size_limit ≠ 0 →
      (encodeHeader (SerializationHeader.new_unversioned crate_version I.name)).length ≤
        HEADER_LENGTH_LIMIT)
    (hbud : c.serialized_size_limit ≠ 0 →
      (I.encode O).length ≤ c.serialized_size_limit - HEADER_LENGTH_LIMIT) :
    c.deserialize_from I crate_version
        (encodeHeader (SerializationHeader.new_unversioned crate_version I.name) ++
          I.encode O) =
      Except.ok O := by
  have hsmall : headerSmall (SerializationHeader.new_unversioned crate_version I.name) :=
    ⟨(by decide : SERIALIZATION_VERSION.length < 2 ^ 64), hcv, hname⟩
  have hhl0 : c.serialized_size_limit = 0 → c.header_length_limit = 0 := by
    intro hz
    unfold NonConformantDeserializationConfig.header_length_limit
    rw [if_pos hz]
  have hhl1 : c.serialized_size_limit ≠ 0 →
      c.header_length_limit = HEADER_LENGTH_LIMIT := by
    intro hz
    unfold NonConformantDeserializationConfig.header_length_limit
    rw [if_neg hz]
  have hguard2 : ¬ (c.serialized_size_limit ≠ 0 ∧
      c.serialized_size_limit ≤ HEADER_LENGTH_LIMIT) := by
    rcases hguard with h | h
    · exact fun hc => hc.1 h
    · exact fun hc => by omega
  have hfit : ¬ (c.header_length_limit ≠ 0 ∧ c.header_length_limit <
      (encodeHeader (SerializationHeader.new_unversioned crate_version I.name)).length) := by
    by_cases hz : c.serialized_size_limit = 0
    · rw [hhl0 hz]
      simp
    · rw [hhl1 hz]
      have := hhead hz
      intro hc
      omega
  have hd1 : I.decode (I.encode O) = some (O, []) := by
    have h := hdec O []
    rwa [List.append_nil] at h
  have hfitbud : (c.serialized_size_limit - c.header_length_limit) ≠ 0 →
      (I.encode O).length ≤ c.serialized_size_limit - c.header_length_limit := by
    intro hb
    by_cases hz : c.serialized_size_limit = 0
    · exact absurd (by rw [hz, hhl0 hz]) hb
    · rw [hhl1 hz]
      exact hbud hz
  have hpv := bincodeDeserialize_whole I.decode
    (c.serialized_size_limit - c.header_length_limit) (I.encode O) O hd1 hfitbud
  rw [deserialize_from_encodedHeader I crate_version c _ hsmall _ hguard2 hfit]
  have hval2 : (if c.validate_header then
      (SerializationHeader.new_unversioned crate_version I.name).validate
        crate_version I.name
    else Except.ok ()) = Except.ok () := by
    cases hvh : c.validate_header <;> simp [validate_new_unversioned]
  rw [hval2, hpv]
  rfl

/-- The conformant read path returns whatever object the non-conformant path
returns when that object passes its conformance predicate. -/
theorem dc_deserialize_of_ncdc_ok {T V P : Type} (I : TypeInterface T V P)
    (crate_version : String) (c : DeserializationConfig) (input : List Nat)
    (parameter_set : P) (O : T)
    (h : c.disable_conformance.deserialize_from I crate_version input =
      Except.ok O)
    (hconf : I.is_conformant O parameter_set = true) :
    c.deserialize_from I crate_version input parameter_set = Except.ok O := by
  unfold DeserializationConfig.deserialize_from
  rw [h]
  show (if ¬ I.is_conformant O parameter_set = true then
      Except.error (conformanceErrMsg I.name)
    else Except.ok O) = Except.ok O
  rw [if_neg (fun hc => hc hconf)]

/-- The byte streams of a versioned write and an unversioned write always
differ: position 11 holds the enum tag of the versioning mode, 0 for
versioned and 1 for unversioned. -/
theorem versioned_bytes_ne_unversioned (nm crate_version : String)
    (p q : List Nat) :
    encodeHeader (SerializationHeader.new_versioned nm) ++ p ≠
      encodeHeader (SerializationHeader.new_unversioned crate_version nm) ++ q := by
  intro hc
  have h1 : (encodeHeader (SerializationHeader.new_versioned nm) ++ p)[11]? =
      some 0 := rfl
  have h2 : (encodeHeader (SerializationHeader.new_unversioned crate_version nm) ++
      q)[11]? = some 1 := rfl
  rw [hc, h2] at h1
  exact absurd h1 (by decide)

/-- A header that fits inside `HEADER_LENGTH_LIMIT` always fits the header
budget of a read config, whether limits are enabled or not. -/
theorem header_fits (c : NonConformantDeserializationConfig)
    (hd : SerializationHeader)
    (hle : (encodeHeader hd).length ≤ HEADER_LENGTH_LIMIT) :
    ¬ (c.header_length_limit ≠ 0 ∧
      c.header_length_limit < (encodeHeader hd).length) := by
  unfold NonConformantDeserializationConfig.header_length_limit
  by_cases hz : c.serialized_size_limit = 0
  · rw [if_pos hz]
    simp
  · rw [if_neg hz]
    intro hc
    omega

/-- A read size limit that is zero or exceeds `HEADER_LENGTH_LIMIT` passes
the small-limit guard of `deserialize_from`. -/
theorem guard_passes (c : NonConformantDeserializationConfig)
    (h : c.serialized_size_limit = 0 ∨
      HEADER_LENGTH_LIMIT < c.serialized_size_limit) :
    ¬ (c.serialized_size_limit ≠ 0 ∧
      c.serialized_size_limit ≤ HEADER_LENGTH_LIMIT) := by
  rcases h with h | h
  · exact fun hc => hc.1 h
  · exact fun hc => by omega

/-- C1: for every object whose collaborator protocols are faithful (serde
encode and decode invert each other, the versioned envelope encode and
decode invert each other, and unversionize inverts versionize) and every
parameter set the object conforms to, serializing with
`SerializationConfig::serialize_into` and reading the bytes back with
`DeserializationConfig::deserialize_from` under matching configuration with
sufficient size limits returns the original object, both in versioned and
in unversioned mode, and the two modes produce different byte streams. -/
theorem c1_serialize_deserialize_roundtrip {T V P : Type}
    (I : TypeInterface T V P) (crate_version : String) (O : T)
    (parameter_set : P) (s d : Nat)
    (hdec : ∀ t r, I.decode (I.encode t ++ r) = some (t, r))
    (hvdec : ∀ v r, I.vdecode (I.vencode v ++ r) = some (v, r))
    (hunv : ∀ t, I.unversionize (I.versionize t) = Except.ok t)
    (hconf : I.is_conformant O parameter_set = true)
    (hname : I.name.length < 2 ^ 64) (hcv : crate_version.length < 2 ^ 64)
    (hdguard : d = 0 ∨ HEADER_LENGTH_LIMIT < d)
    (hheadV : (encodeHeader (SerializationHeader.new_versioned I.name)).length ≤
      HEADER_LENGTH_LIMIT)
    (hheadU : (encodeHeader
      (SerializationHeader.new_unversioned crate_version I.name)).length ≤
      HEADER_LENGTH_LIMIT)
    (hpayVs : s ≠ 0 → (I.vencode (I.versionize O)).length ≤ s)
    (hpayUs : s ≠ 0 → (I.encode O).length ≤ s)
    (hpayVd : d ≠ 0 → (I.vencode (I.versionize O)).length ≤
      d - HEADER_LENGTH_LIMIT)
    (hpayUd : d ≠ 0 → (I.encode O).length ≤ d - HEADER_LENGTH_LIMIT) :
    ∃ bytesV bytesU,
      (SerializationConfig.new s).serialize_into I crate_version O =
        Except.ok bytesV ∧
      ((SerializationConfig.new s).disable_versioning crate_version).serialize_into
        I crate_version O = Except.ok bytesU ∧
      (DeserializationConfig.new d).deserialize_from I crate_version bytesV
        parameter_set = Except.ok O ∧
      (DeserializationConfig.new d).deserialize_from I crate_version bytesU
        parameter_set = Except.ok O ∧
      bytesV ≠ bytesU := by
  refine ⟨_, _,
    serialize_into_versioned I crate_version _ O VERSIONING_VERSION rfl
      (fun _ => hheadV) hpayVs,
    serialize_into_unversioned I crate_version _ O crate_version rfl
      (fun _ => hheadU) hpayUs,
    ?_, ?_, versioned_bytes_ne_unversioned I.name crate_version _ _⟩
  · exact dc_deserialize_of_ncdc_ok I crate_version _ _ parameter_set O
      (ncdc_deserialize_versioned_ok I crate_version _ O hvdec hunv hname
        hdguard (fun _ => hheadV) hpayVd) hconf
  · exact dc_deserialize_of_ncdc_ok I crate_version _ _ parameter_set O
      (ncdc_deserialize_unversioned_ok I crate_version _ O hdec hname hcv
        hdguard (fun _ => hheadU) hpayUd) hconf

/-- C7: a size limit of 0 means unbounded. The unlimited constructors and
the limit-disabling builders produce configs whose size limit is 0, writing
under such a config always succeeds with no size cap on the header or
payload record, and reading the produced bytes back under a limit-0 read
config recovers the object with no size condition at all. -/
theorem c7_zero_size_limit_unbounded {T V P : Type} (I : TypeInterface T V P)
    (crate_version : String) (O : T) (parameter_set : P)
    (hdec : ∀ t r, I.decode (I.encode t ++ r) = some (t, r))
    (hvdec : ∀ v r, I.vdecode (I.vencode v ++ r) = some (v, r))
    (hunv : ∀ t, I.unversionize (I.versionize t) = Except.ok t)
    (hconf : I.is_conformant O parameter_set = true)
    (hname : I.name.length < 2 ^ 64) (hcv : crate_version.length < 2 ^ 64) :
    SerializationConfig.new_with_unlimited_size.serialized_size_limit = 0 ∧
    (∀ c : SerializationConfig, c.disable_size_limit.serialized_size_limit = 0) ∧
    DeserializationConfig.new_with_unlimited_size.serialized_size_limit = 0 ∧
    (∀ c : DeserializationConfig, c.disable_size_limit.serialized_size_limit = 0) ∧
    ∀ (cw : SerializationConfig) (cr : DeserializationConfig),
      cw.serialized_size_limit = 0 → cr.serialized_size_limit = 0 →
      ∃ bytes, cw.serialize_into I crate_version O = Except.ok bytes ∧
        cr.deserialize_from I crate_version bytes parameter_set = Except.ok O := by
  refine ⟨rfl, fun c => rfl, rfl, fun c => rfl, ?_⟩
  intro cw cr hw hr
  have hguard : cr.disable_conformance.serialized_size_limit = 0 ∨
      HEADER_LENGTH_LIMIT < cr.disable_conformance.serialized_size_limit :=
    Or.inl hr
  cases hm : cw.versioned with
  | Versioned vv =>
      refine ⟨_, serialize_into_versioned I crate_version cw O vv hm
        (fun hz => absurd hw hz) (fun hz => absurd hw hz), ?_⟩
      exact dc_deserialize_of_ncdc_ok I crate_version cr _ parameter_set O
        (ncdc_deserialize_versioned_ok I crate_version cr.disable_conformance O
          hvdec hunv hname hguard (fun hz => absurd hr hz)
          (fun hz => absurd hr hz)) hconf
  | Unversioned cvs =>
      refine ⟨_, serialize_into_unversioned I crate_version cw O cvs hm
        (fun hz => absurd hw hz) (fun hz => absurd hw hz), ?_⟩
      exact dc_deserialize_of_ncdc_ok I crate_version cr _ parameter_set O
        (ncdc_deserialize_unversioned_ok I crate_version cr.disable_conformance O
          hdec hname hcv hguard (fun hz => absurd hr hz)
          (fun hz => absurd hr hz)) hconf

/-- C2: for every read config with a nonzero size limit the header budget is
exactly `HEADER_LENGTH_LIMIT = 1000`, independent of the configured limit;
an input whose header record exceeds 1000 bytes is rejected with an error,
and the result does not depend on the payload bytes that follow the header
record, whatever any length field inside the payload claims. -/
theorem c2_header_budget_fixed (c : NonConformantDeserializationConfig)
    (hnz : c.serialized_size_limit ≠ 0) :
    c.header_length_limit = HEADER_LENGTH_LIMIT ∧ HEADER_LENGTH_LIMIT = 1000 ∧
    ∀ (T V P : Type) (I : TypeInterface T V P) (crate_version : String)
      (hd : SerializationHeader) (p1 p2 : List Nat),
      headerSmall hd →
      HEADER_LENGTH_LIMIT < (encodeHeader hd).length →
      (∃ e, c.deserialize_from I crate_version (encodeHeader hd ++ p1) =
        Except.error e) ∧
      c.deserialize_from I crate_version (encodeHeader hd ++ p1) =
        c.deserialize_from I crate_version (encodeHeader hd ++ p2) := by
  have hhl : c.header_length_limit = HEADER_LENGTH_LIMIT := by
    unfold NonConformantDeserializationConfig.header_length_limit
    rw [if_neg hnz]
  refine ⟨hhl, rfl, ?_⟩
  intro T V P I crate_version hd p1 p2 hsmall hbig
  by_cases hguard : c.serialized_size_limit ≤ HEADER_LENGTH_LIMIT
  · have h1 : ∀ p, c.deserialize_from I crate_version (encodeHeader hd ++ p) =
        Except.error sizeLimitTooSmallMsg := by
      intro p
      unfold NonConformantDeserializationConfig.deserialize_from
      rw [if_pos ⟨hnz, hguard⟩]
    exact ⟨⟨_, h1 p1⟩, by rw [h1 p1, h1 p2]⟩
  · have hng : ¬ (c.serialized_size_limit ≠ 0 ∧
        c.serialized_size_limit ≤ HEADER_LENGTH_LIMIT) := fun hc => hguard hc.2
    have h1 : ∀ p, c.deserialize_from I crate_version (encodeHeader hd ++ p) =
        Except.error bincodeSizeErrMsg := by
      intro p
      unfold NonConformantDeserializationConfig.deserialize_from
      rw [if_neg hng,
        bincodeDeserialize_encoded decodeHeader c.header_length_limit
          (encodeHeader hd) p hd (decodeHeader_encodeHeader hd hsmall p),
        if_pos ⟨by rw [hhl]; decide, by rw [hhl]; exact hbig⟩]
    exact ⟨⟨_, h1 p1⟩, by rw [h1 p1, h1 p2]⟩

/-- C3 (amended): `DeserializationConfig::new` is a total constructor that
records the requested size limit verbatim and never raises a configuration
error; for a size limit in `(0, HEADER_LENGTH_LIMIT]` the rejection happens
at the start of every `deserialize_from` call instead, which fails with the
size limit configuration error before reading any input bytes, on both read
paths, so such a limit never reaches the payload budget arithmetic. -/
theorem c3_small_size_limit_rejected_at_deserialize (n : Nat)
    (h1 : 0 < n) (h2 : n ≤ HEADER_LENGTH_LIMIT) :
    DeserializationConfig.new n =
      { serialized_size_limit := n, validate_header := true } ∧
    ∀ (T V P : Type) (I : TypeInterface T V P) (crate_version : String)
      (input : List Nat) (parameter_set : P),
      ((DeserializationConfig.new n).disable_conformance).deserialize_from
        I crate_version input = Except.error sizeLimitTooSmallMsg ∧
      (DeserializationConfig.new n).deserialize_from I crate_version input
        parameter_set = Except.error sizeLimitTooSmallMsg := by
  refine ⟨rfl, ?_⟩
  intro T V P I crate_version input parameter_set
  have hnc : ((DeserializationConfig.new n).disable_conformance).deserialize_from
      I crate_version input = Except.error sizeLimitTooSmallMsg := by
    unfold NonConformantDeserializationConfig.deserialize_from
    exact if_pos ⟨(by omega : n ≠ 0), h2⟩
  refine ⟨hnc, ?_⟩
  unfold DeserializationConfig.deserialize_from
  rw [hnc]

/-- C8: a read size limit that passes the guard makes the payload budget
subtraction exact (the header budget never exceeds the size limit, so no
underflow can occur), and a nonzero payload budget smaller than the payload
record produces the ordinary bincode size limit error rather than any
arithmetic fault. -/
theorem c8_payload_budget_no_underflow (c : NonConformantDeserializationConfig)
    (hguard : c.serialized_size_limit = 0 ∨
      HEADER_LENGTH_LIMIT < c.serialized_size_limit) :
    c.header_length_limit ≤ c.serialized_size_limit ∧
    (c.serialized_size_limit - c.header_length_limit) + c.header_length_limit =
      c.serialized_size_limit ∧
    ∀ (T V P : Type) (I : TypeInterface T V P)
      (crate_version hv vv nm : String) (pb rest : List Nat) (v : V),
      c.serialized_size_limit ≠ 0 →
      c.validate_header = false →
      headerSmall ⟨hv, SerializationVersioningMode.Versioned vv, nm⟩ →
      (encodeHeader ⟨hv, SerializationVersioningMode.Versioned vv, nm⟩).length ≤
        HEADER_LENGTH_LIMIT →
      I.vdecode pb = some (v, rest) →
      c.serialized_size_limit - HEADER_LENGTH_LIMIT < pb.length - rest.length →
      c.deserialize_from I crate_version
        (encodeHeader ⟨hv, SerializationVersioningMode.Versioned vv, nm⟩ ++ pb) =
        Except.error bincodeSizeErrMsg := by
  have hh1000 : HEADER_LENGTH_LIMIT = 1000 := rfl
  have hhl : c.header_length_limit =
      if c.serialized_size_limit = 0 then 0 else HEADER_LENGTH_LIMIT := rfl
  refine ⟨?_, ?_, ?_⟩
  · rw [hhl]
    rcases hguard with h | h
    · rw [if_pos h]
      omega
    · rw [if_neg (by omega)]
      omega
  · rw [hhl]
    rcases hguard with h | h
    · rw [if_pos h]
      omega
    · rw [if_neg (by omega)]
      omega
  · intro T V P I crate_version hv vv nm pb rest v hnz hval hsmall hfith hvdec hlt
    have hhl2 : c.header_length_limit = HEADER_LENGTH_LIMIT := by
      rw [hhl, if_neg hnz]
    have hguard2 := guard_passes c hguard
    have hfit2 := header_fits c _ hfith
    rw [deserialize_from_encodedHeader I crate_version c _ hsmall pb hguard2 hfit2,
      hval]
    have hbc : bincodeDeserialize I.vdecode
        (c.serialized_size_limit - c.header_length_limit) pb =
        Except.error bincodeSizeErrMsg := by
      unfold bincodeDeserialize
      rw [hvdec]
      show (if (c.serialized_size_limit - c.header_length_limit) ≠ 0 ∧
          c.serialized_size_limit - c.header_length_limit <
            pb.length - rest.length then
          (Except.error bincodeSizeErrMsg : Except String (V × List Nat))
        else Except.ok (v, rest)) = Except.error bincodeSizeErrMsg
      rw [if_pos ⟨by rw [hhl2]; rcases hguard with h | h; exact absurd h hnz; omega,
        by rw [hhl2]; exact hlt⟩]
    rw [hbc]
    rfl

/-- C9: the conformant read path succeeds with a value exactly when the
non-conformant read path succeeds with that value and the value passes the
conformance predicate for the supplied parameter set; a decoded object that
fails the predicate is rejected with the conformance error, distinct from
and after decode-stage errors. The `Except` result carries either a value
or an error, never both. -/
theorem c9_conformance_gate {T V P : Type} (I : TypeInterface T V P)
    (crate_version : String) (c : DeserializationConfig) (input : List Nat)
    (parameter_set : P) :
    (∀ v : T,
      c.deserialize_from I crate_version input parameter_set = Except.ok v ↔
        (c.disable_conformance.deserialize_from I crate_version input =
          Except.ok v ∧ I.is_conformant v parameter_set = true)) ∧
    ∀ v : T,
      c.disable_conformance.deserialize_from I crate_version input =
        Except.ok v →
      I.is_conformant v parameter_set = false →
      c.deserialize_from I crate_version input parameter_set =
        Except.error (conformanceErrMsg I.name) := by
  constructor
  · intro v
    unfold DeserializationConfig.deserialize_from
    cases hnc : c.disable_conformance.deserialize_from I crate_version input with
    | error e =>
        simp
    | ok w =>
        by_cases hcf : I.is_conformant w parameter_set = true
        · rw [show (match Except.ok w with
            | Except.error e => (Except.error e : Except String T)
            | Except.ok deser =>
                if ¬ I.is_conformant deser parameter_set = true then
                  Except.error (conformanceErrMsg I.name)
                else Except.ok deser) =
              Except.ok w from by
            show (if ¬ I.is_conformant w parameter_set = true then
                Except.error (conformanceErrMsg I.name)
              else Except.ok w) = Except.ok w
            rw [if_neg (fun hc => hc hcf)]]
          simp only [Except.ok.injEq]
          exact ⟨fun h => ⟨h, h ▸ hcf⟩, fun h => h.1⟩
        · rw [show (match Except.ok w with
            | Except.error e => (Except.error e : Except String T)
            | Except.ok deser =>
                if ¬ I.is_conformant deser parameter_set = true then
                  Except.error (conformanceErrMsg I.name)
                else Except.ok deser) =
              Except.error (conformanceErrMsg I.name) from by
            show (if ¬ I.is_conformant w parameter_set = true then
                Except.error (conformanceErrMsg I.name)
              else Except.ok w) = Except.error (conformanceErrMsg I.name)
            rw [if_pos hcf]]
          constructor
          · intro hv
            exact Except.noConfusion hv
          · rintro ⟨hv, hcv2⟩
            obtain rfl : w = v := by
              injection hv
            exact absurd hcv2 hcf
  · intro v hnc hfalse
    unfold DeserializationConfig.deserialize_from
    rw [hnc]
    show (if ¬ I.is_conformant v parameter_set = true then
        Except.error (conformanceErrMsg I.name)
      else Except.ok v) = Except.error (conformanceErrMsg I.name)
    rw [if_pos (by rw [hfalse]; exact fun hc => Bool.noConfusion hc)]

/-- C10: the transitions between the conformance-capable and the
non-conformant builder states preserve the size limit and the header
validation flag, and composing the two transitions in either order is the
identity. -/
theorem c10_conformance_toggle_preserves_fields :
    (∀ c : DeserializationConfig,
      c.disable_conformance.enable_conformance = c ∧
      c.disable_conformance.serialized_size_limit = c.serialized_size_limit ∧
      c.disable_conformance.validate_header = c.validate_header) ∧
    (∀ n : NonConformantDeserializationConfig,
      n.enable_conformance.disable_conformance = n ∧
      n.enable_conformance.serialized_size_limit = n.serialized_size_limit ∧
      n.enable_conformance.validate_header = n.validate_header) :=
  ⟨fun _ => ⟨rfl, rfl, rfl⟩, fun _ => ⟨rfl, rfl, rfl⟩⟩

/-- C4 (amended): header validation never inspects `header_version`; two
headers that differ only in that field validate identically, so a
`header_version` different from the current `SERIALIZATION_VERSION` is, by
itself, never a reason for rejection (the counterexample shows a full read
accepting such an input). -/
theorem c4_header_version_never_checked (hv1 hv2 : String)
    (m : SerializationVersioningMode) (nm crate_version expected : String) :
    SerializationHeader.validate ⟨hv1, m, nm⟩ crate_version expected =
      SerializationHeader.validate ⟨hv2, m, nm⟩ crate_version expected := rfl

/-- C4 counterexample: a full conformant read with header validation on
accepts an input whose header carries `header_version` "9.9", different
from the current "0.5"; the claim says it must be a hard error. -/
theorem c4_counterexample :
    (DeserializationConfig.new 2000).deserialize_from natInterface "0.8"
        (encodeHeader ⟨"9.9",
          SerializationVersioningMode.Versioned VERSIONING_VERSION,
          "TestType"⟩ ++ [42]) true =
      Except.ok 42 := by rfl

/-- C5 (amended): when the versioning-mode checks of the header pass, a
header whose embedded type name differs from the expected `Named::NAME`
makes the read path fail with the name mismatch error, which names both the
expected and the found type; the payload bytes are never consulted, so the
outcome is the same for any payload, in particular for types with identical
byte layouts. As frozen, the claim is falsified by inputs whose header also
fails an earlier versioning check (see the counterexample). -/
theorem c5_name_mismatch_error {T V P : Type} (I : TypeInterface T V P)
    (crate_version : String) (c : NonConformantDeserializationConfig)
    (nm hv : String) (p : List Nat)
    (hval : c.validate_header = true)
    (hguard : c.serialized_size_limit = 0 ∨
      HEADER_LENGTH_LIMIT < c.serialized_size_limit)
    (hne : nm ≠ I.name)
    (hsmallv : headerSmall ⟨hv,
      SerializationVersioningMode.Versioned VERSIONING_VERSION, nm⟩)
    (hfitv : (encodeHeader ⟨hv,
      SerializationVersioningMode.Versioned VERSIONING_VERSION, nm⟩).length ≤
      HEADER_LENGTH_LIMIT)
    (hsmallu : headerSmall ⟨hv,
      SerializationVersioningMode.Unversioned crate_version, nm⟩)
    (hfitu : (encodeHeader ⟨hv,
      SerializationVersioningMode.Unversioned crate_version, nm⟩).length ≤
      HEADER_LENGTH_LIMIT) :
    c.deserialize_from I crate_version
      (encodeHeader ⟨hv, SerializationVersioningMode.Versioned VERSIONING_VERSION,
        nm⟩ ++ p) = Except.error (nameMismatchMsg I.name nm) ∧
    c.deserialize_from I crate_version
      (encodeHeader ⟨hv, SerializationVersioningMode.Unversioned crate_version,
        nm⟩ ++ p) = Except.error (nameMismatchMsg I.name nm) := by
  have hguard2 := guard_passes c hguard
  constructor
  · rw [deserialize_from_encodedHeader I crate_version c _ hsmallv p hguard2
      (header_fits c _ hfitv), hval]
    have hval1 : SerializationHeader.validate
        ⟨hv, SerializationVersioningMode.Versioned VERSIONING_VERSION, nm⟩
        crate_version I.name = Except.error (nameMismatchMsg I.name nm) := by
      show (match (if VERSIONING_VERSION ≠ VERSIONING_VERSION then
            Except.error (versioningMismatchMsg VERSIONING_VERSION)
          else Except.ok ()) with
        | Except.error e => Except.error e
        | Except.ok _ =>
            if nm ≠ I.name then Except.error (nameMismatchMsg I.name nm)
            else Except.ok ()) =
        Except.error (nameMismatchMsg I.name nm)
      rw [if_neg (fun hc => hc rfl)]
      show (if nm ≠ I.name then Except.error (nameMismatchMsg I.name nm)
        else Except.ok ()) = Except.error (nameMismatchMsg I.name nm)
      rw [if_pos hne]
    rw [hval1]
    rfl
  · rw [deserialize_from_encodedHeader I crate_version c _ hsmallu p hguard2
      (header_fits c _ hfitu), hval]
    have hval1 : SerializationHeader.validate
        ⟨hv, SerializationVersioningMode.Unversioned crate_version, nm⟩
        crate_version I.name = Except.error (nameMismatchMsg I.name nm) := by
      show (match (if crate_version ≠ crate_version then
            Except.error (unversionedMismatchMsg nm crate_version)
          else Except.ok ()) with
        | Except.error e => Except.error e
        | Except.ok _ =>
            if nm ≠ I.name then Except.error (nameMismatchMsg I.name nm)
            else Except.ok ()) =
        Except.error (nameMismatchMsg I.name nm)
      rw [if_neg (fun hc => hc rfl)]
      show (if nm ≠ I.name then Except.error (nameMismatchMsg I.name nm)
        else Except.ok ()) = Except.error (nameMismatchMsg I.name nm)
      rw [if_pos hne]
    rw [hval1]
    rfl

/-- C5 counterexample: an input whose header carries a wrong type name and
also a wrong versioning scheme version fails with the versioning error, not
with the name mismatch error, falsifying the claim that every wrong-name
input fails with the name mismatch error. -/
theorem c5_counterexample :
    ((DeserializationConfig.new 2000).disable_conformance).deserialize_from
        natInterface "0.8"
        (encodeHeader ⟨"0.5", SerializationVersioningMode.Versioned "9.9",
          "OtherType"⟩ ++ [42]) =
      Except.error (versioningMismatchMsg "9.9") ∧
    versioningMismatchMsg "9.9" ≠ nameMismatchMsg "TestType" "OtherType" :=
  ⟨by rfl, by decide⟩

/-- C6 (amended): with header validation on, (1) unversioned data written
by one crate version and read expecting a different crate version fails
with the message that recommends the versioned mode; (2) validation of a
versioned header does not depend on the reader crate version, (3) succeeds
exactly when the versioning scheme version matches and the embedded type
name matches the expected one, and (4) a versioning scheme version mismatch
is the hard versioning error. As frozen, the claim omits the type name
condition in part (3) (see the counterexample). -/
theorem c6_crate_version_discipline :
    (∀ (T V P : Type) (I : TypeInterface T V P)
      (reader_cv writer_cv hv nm : String)
      (c : NonConformantDeserializationConfig) (p : List Nat),
      c.validate_header = true →
      (c.serialized_size_limit = 0 ∨
        HEADER_LENGTH_LIMIT < c.serialized_size_limit) →
      writer_cv ≠ reader_cv →
      headerSmall ⟨hv, SerializationVersioningMode.Unversioned writer_cv, nm⟩ →
      (encodeHeader ⟨hv, SerializationVersioningMode.Unversioned writer_cv,
        nm⟩).length ≤ HEADER_LENGTH_LIMIT →
      c.deserialize_from I reader_cv
        (encodeHeader ⟨hv, SerializationVersioningMode.Unversioned writer_cv,
          nm⟩ ++ p) =
        Except.error (unversionedMismatchMsg nm writer_cv)) ∧
    (∀ hv vv nm cv1 cv2 expected : String,
      SerializationHeader.validate
        ⟨hv, SerializationVersioningMode.Versioned vv, nm⟩ cv1 expected =
      SerializationHeader.validate
        ⟨hv, SerializationVersioningMode.Versioned vv, nm⟩ cv2 expected) ∧
    (∀ hv nm cv expected : String,
      SerializationHeader.validate
        ⟨hv, SerializationVersioningMode.Versioned VERSIONING_VERSION, nm⟩
        cv expected = Except.ok () ↔ nm = expected) ∧
    (∀ hv vv nm cv expected : String, vv ≠ VERSIONING_VERSION →
      SerializationHeader.validate
        ⟨hv, SerializationVersioningMode.Versioned vv, nm⟩ cv expected =
        Except.error (versioningMismatchMsg vv)) := by
  refine ⟨?_, ?_, ?_, ?_⟩
  · intro T V P I reader_cv writer_cv hv nm c p hval hguard hne hsmall hfit
    rw [deserialize_from_encodedHeader I reader_cv c _ hsmall p
      (guard_passes c hguard) (header_fits c _ hfit), hval]
    have hval1 : SerializationHeader.validate
        ⟨hv, SerializationVersioningMode.Unversioned writer_cv, nm⟩
        reader_cv I.name =
        Except.error (unversionedMismatchMsg nm writer_cv) := by
      show (match (if writer_cv ≠ reader_cv then
            Except.error (unversionedMismatchMsg nm writer_cv)
          else Except.ok ()) with
        | Except.error e => Except.error e
        | Except.ok _ =>
            if nm ≠ I.name then Except.error (nameMismatchMsg I.name nm)
            else Except.ok ()) =
        Except.error (unversionedMismatchMsg nm writer_cv)
      rw [if_pos hne]
    rw [hval1]
    rfl
  · intro hv vv nm cv1 cv2 expected
    rfl
  · intro hv nm cv expected
    show (match (if VERSIONING_VERSION ≠ VERSIONING_VERSION then
          Except.error (versioningMismatchMsg VERSIONING_VERSION)
        else Except.ok ()) with
      | Except.error e => Except.error e
      | Except.ok _ =>
          if nm ≠ expected then Except.error (nameMismatchMsg expected nm)
          else Except.ok ()) = Except.ok () ↔ nm = expected
    rw [if_neg (fun hc => hc rfl)]
    show (if nm ≠ expected then Except.error (nameMismatchMsg expected nm)
      else Except.ok ()) = Except.ok () ↔ nm = expected
    constructor
    · intro hh
      by_contra hne2
      rw [if_pos hne2] at hh
      exact Except.noConfusion hh
    · intro he
      rw [if_neg (fun hc => hc he)]
  · intro hv vv nm cv expected hvne
    show (match (if vv ≠ VERSIONING_VERSION then
          Except.error (versioningMismatchMsg vv)
        else Except.ok ()) with
      | Except.error e => Except.error e
      | Except.ok _ =>
          if nm ≠ expected then Except.error (nameMismatchMsg expected nm)
          else Except.ok ()) = Except.error (versioningMismatchMsg vv)
    rw [if_pos hvne]

/-- C6 counterexample: versioned-mode data whose versioning scheme version
matches the current one still fails header validation when the embedded
type name differs from the expected one, falsifying the claim that a
matching versioning scheme version suffices for versioned-mode validation
to succeed. -/
theorem c6_counterexample :
    SerializationHeader.validate
        ⟨SERIALIZATION_VERSION,
          SerializationVersioningMode.Versioned VERSIONING_VERSION,
          "OtherType"⟩ "0.8" "TestType" =
      Except.error (nameMismatchMsg "TestType" "OtherType") := by rfl

/-- Concrete instantiation of the round trip claim on the sample
collaborator instance. -/
theorem c1_roundtrip_witness :
    natInterface.is_conformant 42 true = true ∧
    (∃ bytesV bytesU,
      (SerializationConfig.new 2000).serialize_into natInterface "0.8" 42 =
        Except.ok bytesV ∧
      ((SerializationConfig.new 2000).disable_versioning "0.8").serialize_into
        natInterface "0.8" 42 = Except.ok bytesU ∧
      (DeserializationConfig.new 2000).deserialize_from natInterface "0.8"
        bytesV true = Except.ok 42 ∧
      (DeserializationConfig.new 2000).deserialize_from natInterface "0.8"
        bytesU true = Except.ok 42 ∧
      bytesV ≠ bytesU) :=
  ⟨rfl,
    c1_serialize_deserialize_roundtrip natInterface "0.8" 42 true 2000 2000
      (fun _ _ => rfl) (fun _ _ => rfl) (fun _ => rfl) rfl (by decide)
      (by decide) (Or.inr (by decide)) (by decide) (by decide)
      (fun _ => by decide) (fun _ => by decide) (fun _ => by decide)
      (fun _ => by decide)⟩

set_option maxRecDepth 10000 in
/-- Concrete instantiation of the header budget claim: a header with a
1000-character type name exceeds the 1000-byte budget and is rejected
independently of the payload. -/
theorem c2_header_budget_witness :
    (({ serialized_size_limit := 2000, validate_header := true } :
      NonConformantDeserializationConfig).serialized_size_limit ≠ 0) ∧
    headerSmall ⟨SERIALIZATION_VERSION, SerializationVersioningMode.versioned,
      longTestName⟩ ∧
    HEADER_LENGTH_LIMIT < (encodeHeader ⟨SERIALIZATION_VERSION,
      SerializationVersioningMode.versioned, longTestName⟩).length ∧
    (∃ e, ({ serialized_size_limit := 2000, validate_header := true } :
        NonConformantDeserializationConfig).deserialize_from natInterface "0.8"
        (encodeHeader ⟨SERIALIZATION_VERSION,
          SerializationVersioningMode.versioned, longTestName⟩ ++ [1]) =
      Except.error e) ∧
    ({ serialized_size_limit := 2000, validate_header := true } :
        NonConformantDeserializationConfig).deserialize_from natInterface "0.8"
        (encodeHeader ⟨SERIALIZATION_VERSION,
          SerializationVersioningMode.versioned, longTestName⟩ ++ [1]) =
      ({ serialized_size_limit := 2000, validate_header := true } :
        NonConformantDeserializationConfig).deserialize_from natInterface "0.8"
        (encodeHeader ⟨SERIALIZATION_VERSION,
          SerializationVersioningMode.versioned, longTestName⟩ ++ [2]) := by
  have h := (c2_header_budget_fixed
      { serialized_size_limit := 2000, validate_header := true }
      (by decide)).2.2 Nat Nat Bool natInterface "0.8"
      ⟨SERIALIZATION_VERSION, SerializationVersioningMode.versioned,
        longTestName⟩ [1] [2]
      ⟨by decide, by decide, by decide⟩ (by decide)
  exact ⟨by decide, ⟨by decide, by decide, by decide⟩, by decide, h.1, h.2⟩

/-- C3 counterexample: the source constructor succeeds on a size limit of
500 and yields an ordinary config value recording that limit, while a
constructor following the words of the specification would reject it; no
configuration error is raised at construction time. -/
theorem c3_counterexample :
    DeserializationConfig.new 500 =
      { serialized_size_limit := 500, validate_header := true } ∧
    DeserializationConfig.new_spec 500 = Except.error sizeLimitTooSmallMsg :=
  ⟨rfl, by rfl⟩

/-- Concrete instantiation of the amended small size limit claim. -/
theorem c3_small_size_limit_witness :
    0 < 500 ∧ 500 ≤ HEADER_LENGTH_LIMIT ∧
    DeserializationConfig.new 500 =
      { serialized_size_limit := 500, validate_header := true } ∧
    ((DeserializationConfig.new 500).disable_conformance).deserialize_from
      natInterface "0.8" [1, 2, 3] = Except.error sizeLimitTooSmallMsg ∧
    (DeserializationConfig.new 500).deserialize_from natInterface "0.8"
      [1, 2, 3] false = Except.error sizeLimitTooSmallMsg := by
  have h := c3_small_size_limit_rejected_at_deserialize 500 (by decide)
    (by decide)
  have h2 := h.2 Nat Nat Bool natInterface "0.8" [1, 2, 3] false
  exact ⟨by decide, by decide, h.1, h2.1, h2.2⟩

/-- Concrete instantiation of the amended name mismatch claim. -/
theorem c5_name_mismatch_witness :
    "OtherType" ≠ natInterface.name ∧
    ((DeserializationConfig.new 2000).disable_conformance).deserialize_from
        natInterface "0.8"
        (encodeHeader ⟨"0.5",
          SerializationVersioningMode.Versioned VERSIONING_VERSION,
          "OtherType"⟩ ++ [42]) =
      Except.error (nameMismatchMsg natInterface.name "OtherType") ∧
    ((DeserializationConfig.new 2000).disable_conformance).deserialize_from
        natInterface "0.8"
        (encodeHeader ⟨"0.5", SerializationVersioningMode.Unversioned "0.8",
          "OtherType"⟩ ++ [42]) =
      Except.error (nameMismatchMsg natInterface.name "OtherType") := by
  have h := c5_name_mismatch_error natInterface "0.8"
    ((DeserializationConfig.new 2000).disable_conformance) "OtherType" "0.5"
    [42] rfl (Or.inr (by decide)) (by decide)
    ⟨by decide, by decide, by decide⟩ (by decide)
    ⟨by decide, by decide, by decide⟩ (by decide)
  exact ⟨by decide, h.1, h.2⟩

/-- Concrete instantiation of the amended crate version claim. -/
theorem c6_crate_version_witness :
    ("0.7" : String) ≠ "0.8" ∧
    ({ serialized_size_limit := 2000, validate_header := true } :
        NonConformantDeserializationConfig).deserialize_from natInterface "0.8"
        (encodeHeader ⟨"0.5", SerializationVersioningMode.Unversioned "0.7",
          "TestType"⟩ ++ [42]) =
      Except.error (unversionedMismatchMsg "TestType" "0.7") ∧
    SerializationHeader.validate
        ⟨"0.5", SerializationVersioningMode.Versioned VERSIONING_VERSION,
          "TestType"⟩ "0.1" "TestType" =
      SerializationHeader.validate
        ⟨"0.5", SerializationVersioningMode.Versioned VERSIONING_VERSION,
          "TestType"⟩ "0.9" "TestType" ∧
    (SerializationHeader.validate
        ⟨"0.5", SerializationVersioningMode.Versioned VERSIONING_VERSION,
          "TestType"⟩ "0.8" "TestType" = Except.ok () ↔
      ("TestType" : String) = "TestType") ∧
    SerializationHeader.validate
        ⟨"0.5", SerializationVersioningMode.Versioned "9.9", "TestType"⟩
        "0.8" "TestType" =
      Except.error (versioningMismatchMsg "9.9") := by
  refine ⟨by decide, ?_, ?_, ?_, ?_⟩
  · exact c6_crate_version_discipline.1 Nat Nat Bool natInterface "0.8" "0.7"
      "0.5" "TestType"
      { serialized_size_limit := 2000, validate_header := true } [42] rfl
      (Or.inr (by decide)) (by decide) ⟨by decide, by decide, by decide⟩
      (by decide)
  · exact c6_crate_version_discipline.2.1 "0.5" VERSIONING_VERSION "TestType"
      "0.1" "0.9" "TestType"
  · exact c6_crate_version_discipline.2.2.1 "0.5" "TestType" "0.8" "TestType"
  · exact c6_crate_version_discipline.2.2.2 "0.5" "9.9" "TestType" "0.8"
      "TestType" (by decide)

/-- Concrete instantiation of the unbounded zero size limit claim. -/
theorem c7_zero_limit_witness :
    SerializationConfig.new_with_unlimited_size.serialized_size_limit = 0 ∧
    DeserializationConfig.new_with_unlimited_size.serialized_size_limit = 0 ∧
    ∃ bytes, SerializationConfig.new_with_unlimited_size.serialize_into
        natInterface "0.8" 42 = Except.ok bytes ∧
      DeserializationConfig.new_with_unlimited_size.deserialize_from
        natInterface "0.8" bytes true = Except.ok 42 := by
  have h := (c7_zero_size_limit_unbounded natInterface "0.8" 42 true
    (fun _ _ => rfl) (fun _ _ => rfl) (fun _ => rfl) rfl (by decide)
    (by decide)).2.2.2.2 SerializationConfig.new_with_unlimited_size
    DeserializationConfig.new_with_unlimited_size rfl rfl
  exact ⟨rfl, rfl, h⟩

/-- Concrete instantiation of the payload budget claim: with a size limit
of 1001 the payload budget is one byte, and an 8-byte payload record is
rejected with the ordinary bincode size limit error. -/
theorem c8_payload_budget_witness :
    u64Interface.vdecode (encodeU64 7) = some (7, []) ∧
    (1001 : Nat) - HEADER_LENGTH_LIMIT <
      (encodeU64 7).length - ([] : List Nat).length ∧
    ({ serialized_size_limit := 1001, validate_header := false } :
        NonConformantDeserializationConfig).deserialize_from u64Interface "0.8"
        (encodeHeader ⟨"0.5", SerializationVersioningMode.Versioned "0.1",
          "TestU64"⟩ ++ encodeU64 7) =
      Except.error bincodeSizeErrMsg := by
  have h := (c8_payload_budget_no_underflow
      { serialized_size_limit := 1001, validate_header := false }
      (Or.inr (by decide))).2.2 Nat Nat Bool u64Interface "0.8" "0.5" "0.1"
      "TestU64" (encodeU64 7) [] 7 (by decide) rfl
      ⟨by decide, by decide, by decide⟩ (by decide) (by rfl) (by decide)
  exact ⟨by rfl, by decide, h⟩

/-- Concrete instantiation of the conformance gate claim: an object that
decodes successfully but fails the conformance predicate is rejected with
the conformance error. -/
theorem c9_conformance_gate_witness :
    ((DeserializationConfig.new 2000).disable_conformance).deserialize_from
        natInterface "0.8"
        (encodeHeader (SerializationHeader.new_versioned "TestType") ++ [7]) =
      Except.ok 7 ∧
    natInterface.is_conformant 7 false = false ∧
    (DeserializationConfig.new 2000).deserialize_from natInterface "0.8"
        (encodeHeader (SerializationHeader.new_versioned "TestType") ++ [7])
        false =
      Except.error (conformanceErrMsg natInterface.name) :=
  ⟨by rfl, rfl,
    (c9_conformance_gate natInterface "0.8" (DeserializationConfig.new 2000)
      (encodeHeader (SerializationHeader.new_versioned "TestType") ++ [7])
      false).2 7 (by rfl) rfl⟩
